import Mathlib

/-!
# Verification of the Kilovolt Python client (connection layer)

A shallow embedding of `src/kilovolt/connection.py` (class `KilovoltClient`).

Modelling conventions:
* Python `dict` → association list `List (String × α)` with the usual dict
  semantics: `dlookup` is `d[k]` / `k in d`, `dset` is `d[k] = v` (overwrite in
  place if present, append otherwise), `derase` is `del d[k]`.
* Python `set` of callback functions → `List Nat` of abstract callback
  identifiers, kept duplicate-free by `setAdd` (`set.add`) and `List.erase`
  (`set.remove`).
* `asyncio.Future` slots in the pending table → `Option Frame`:
  `none` is an unresolved future, `some f` a future resolved with frame `f`.
* Python exceptions → `Except PyErr`; `ValueError` raised by the client and
  `KeyError` / `InvalidStateError` raised by dict/set/future primitives are
  distinguished.
* Observable side effects (server commands written to the websocket, listener
  invocations, `print` diagnostics) are returned explicitly as lists.
-/

/-- Python exceptions that the embedded code can raise. -/
inductive PyErr where
  /-- `ValueError`, raised explicitly by the client code. -/
  | valueError : PyErr
  /-- `KeyError`, raised by `dict[k]` on a missing key or `set.remove` on a
      missing element. -/
  | keyError : PyErr
  /-- `asyncio.InvalidStateError`, raised by `Future.set_result` on an
      already-resolved future. -/
  | invalidState : PyErr
deriving DecidableEq, Repr

/-- Dict lookup: `d[k]` as an `Option` (`none` ↔ `k not in d`). -/
def dlookup {α : Type} : List (String × α) → String → Option α
  | [], _ => none
  | (k, v) :: rest, key => if k = key then some v else dlookup rest key

/-- Dict assignment `d[key] = v`: overwrites the entry in place when `key` is
present, appends a new entry otherwise (Python dicts preserve insertion
order). -/
def dset {α : Type} : List (String × α) → String → α → List (String × α)
  | [], key, v => [(key, v)]
  | (k, w) :: rest, key, v =>
      if k = key then (key, v) :: rest else (k, w) :: dset rest key v

/-- Dict deletion `del d[key]`: removes the first entry with that key. -/
def derase {α : Type} : List (String × α) → String → List (String × α)
  | [], _ => []
  | (k, w) :: rest, key => if k = key then rest else (k, w) :: derase rest key

/-- `set.add`: insert the callback if it is not already present. -/
def setAdd (l : List Nat) (c : Nat) : List Nat :=
  if c ∈ l then l else l ++ [c]

/-- An inbound JSON frame, as the fields the read loop inspects.
`requestId` models `data["request_id"]` (`none` ↔ key absent), `ftype` models
`data["type"]`, `key` / `newValue` the `push` payload, `version` the `hello`
payload. -/
structure Frame where
  requestId : Option String
  ftype : Option String
  key : Option String
  newValue : Option String
  version : Option String
deriving DecidableEq, Repr

/-- Commands the client writes to the websocket for subscription management
(the `data` payload carries the pattern). -/
inductive ServerCmd where
  | ksub : String → ServerCmd
  | kunsub : String → ServerCmd
  | ksubPrefixCmd : String → ServerCmd
  | kunsubPrefixCmd : String → ServerCmd
deriving DecidableEq, Repr

/-- Observable effects of the read loop. -/
inductive Event where
  /-- A subscriber callback invoked as `func(key, new_value)`. -/
  | invoke : Nat → String → String → Event
  /-- `print("received response for a weird request_id!")`. -/
  | reportWeird : Event
  /-- `print(data)` for an unrecognized message type. -/
  | reportUnknown : Event
deriving DecidableEq, Repr

/-- Mutable state of a `KilovoltClient` instance:
`pending` is `self.__pending`, `keySubs` is `self.__key_subscriptions`,
`prefixSubs` is `self.__prefix_subscriptions`, plus `self.version` and
`self.connected`. -/
structure ClientState where
  pending : List (String × Option Frame)
  keySubs : List (String × List Nat)
  prefixSubs : List (String × List Nat)
  version : Option String
  connected : Bool
deriving DecidableEq, Repr

/-- The state established by `KilovoltClient.__init__`: empty tables,
no version, not connected. -/
def initState : ClientState :=
  { pending := [], keySubs := [], prefixSubs := [], version := none,
    connected := false }

/-- `KilovoltClient.subscribe` (connection.py lines 175–187): if the key is not
yet in `__key_subscriptions`, send `ksub` and create an empty listener set;
then add the callback to the key's set. Returns the new state and the server
commands written. -/
def subscribe (st : ClientState) (key : String) (cb : Nat) :
    ClientState × List ServerCmd :=
  match dlookup st.keySubs key with
  | some cbs =>
      ({ st with keySubs := dset st.keySubs key (setAdd cbs cb) }, [])
  | none =>
      ({ st with keySubs := dset (dset st.keySubs key []) key (setAdd [] cb) },
       [ServerCmd.ksub key])

/-- `KilovoltClient.unsubscribe` (connection.py lines 189–204): raise
`ValueError` if the key is not subscribed; `set.remove` the callback (raising
`KeyError` if absent, before any mutation); then — verbatim from the source —
test `len(self.__key_subscriptions) < 1`, i.e. the number of *keys in the whole
registry* after the removal, and only in that case send `kunsub` and delete the
key. -/
def unsubscribe (st : ClientState) (key : String) (cb : Nat) :
    Except PyErr (ClientState × List ServerCmd) :=
  match dlookup st.keySubs key with
  | none => .error .valueError
  | some cbs =>
      if cb ∈ cbs then
        let subs1 := dset st.keySubs key (cbs.erase cb)
        if subs1.length < 1 then
          .ok ({ st with keySubs := derase subs1 key }, [ServerCmd.kunsub key])
        else
          .ok ({ st with keySubs := subs1 }, [])
      else .error .keyError

/-- `KilovoltClient.subscribe_prefix` (connection.py lines 206–218), the
prefix-registry mirror of `subscribe`. -/
def prefixSubscribe (st : ClientState) (pre : String) (cb : Nat) :
    ClientState × List ServerCmd :=
  match dlookup st.prefixSubs pre with
  | some cbs =>
      ({ st with prefixSubs := dset st.prefixSubs pre (setAdd cbs cb) }, [])
  | none =>
      ({ st with
          prefixSubs := dset (dset st.prefixSubs pre []) pre (setAdd [] cb) },
       [ServerCmd.ksubPrefixCmd pre])

/-- `KilovoltClient.unsubscribe_prefix` (connection.py lines 220–235), the
prefix-registry mirror of `unsubscribe`, including the registry-wide
`len(self.__prefix_subscriptions) < 1` test from the source. -/
def prefixUnsubscribe (st : ClientState) (pre : String) (cb : Nat) :
    Except PyErr (ClientState × List ServerCmd) :=
  match dlookup st.prefixSubs pre with
  | none => .error .valueError
  | some cbs =>
      if cb ∈ cbs then
        let subs1 := dset st.prefixSubs pre (cbs.erase cb)
        if subs1.length < 1 then
          .ok ({ st with prefixSubs := derase subs1 pre },
               [ServerCmd.kunsubPrefixCmd pre])
        else
          .ok ({ st with prefixSubs := subs1 }, [])
      else .error .keyError

/-- The listener set the dispatcher consults for an exact key:
`self.__key_subscriptions[key]` when present, nothing otherwise. -/
def listenersOfKey (st : ClientState) (key : String) : List Nat :=
  (dlookup st.keySubs key).getD []

/-- The `for prefix in self.__prefix_subscriptions.keys()` loop of the push
handler (connection.py lines 58–61): for each registered prefix that is a
string-prefix of the pushed key (`key.startswith(prefix)`), invoke each of its
listeners with `(key, new_value)`. -/
def prefixDispatch (prefixSubs : List (String × List Nat)) (key value : String) :
    List Event :=
  match prefixSubs with
  | [] => []
  | e :: rest =>
      (if e.1.isPrefixOf key then e.2.map (fun c => Event.invoke c key value)
       else []) ++ prefixDispatch rest key value

/-- The `push` branch of the read loop (connection.py lines 51–61): invoke the
exact-key listeners of `key` (if any), then the listeners of every matching
prefix pattern. -/
def dispatchPush (st : ClientState) (key value : String) : List Event :=
  (match dlookup st.keySubs key with
   | some cbs => cbs.map (fun c => Event.invoke c key value)
   | none => []) ++ prefixDispatch st.prefixSubs key value

/-- One iteration of `KilovoltClient.__read_task` (connection.py lines 36–64)
on a parsed frame. In source order:
* a frame with a `request_id`: if the id is a pending unresolved future, call
  `set_result(data)` on it (the entry is *not* removed from `__pending`;
  `set_result` on an already-resolved future raises `InvalidStateError`);
  otherwise print a diagnostic and continue;
* `if not data["type"]: continue` (a missing `"type"` key raises `KeyError`);
* `"hello"`: record the version and set `connected = True`;
* `"push"`: dispatch to exact-key and prefix listeners;
* anything else: `print(data)` and continue. -/
def handleFrame (st : ClientState) (f : Frame) :
    Except PyErr (ClientState × List Event) :=
  match f.requestId with
  | some rid =>
      match dlookup st.pending rid with
      | some none => .ok ({ st with pending := dset st.pending rid (some f) }, [])
      | some (some _) => .error .invalidState
      | none => .ok (st, [Event.reportWeird])
  | none =>
      match f.ftype with
      | none => .error .keyError
      | some t =>
          if t = "" then .ok (st, [])
          else if t = "hello" then
            match f.version with
            | some v => .ok ({ st with version := some v, connected := true }, [])
            | none => .error .keyError
          else if t = "push" then
            match f.key, f.newValue with
            | some k, some v => .ok (st, dispatchPush st k v)
            | _, _ => .error .keyError
          else .ok (st, [Event.reportUnknown])

/-- The whole read loop: `async for message in self.websocket` consumes the
inbound frame sequence until it ends; when it ends the coroutine simply
returns (connection.py has no code after the loop body). -/
def readTask (st : ClientState) : List Frame → Except PyErr (ClientState × List Event)
  | [] => .ok (st, [])
  | f :: fs =>
      match handleFrame st f with
      | .error e => .error e
      | .ok (st1, evs) =>
          match readTask st1 fs with
          | .error e => .error e
          | .ok (st2, evs2) => .ok (st2, evs ++ evs2)

/-- The pending-table registration performed by `KilovoltClient.send`
(connection.py lines 90–92): create a fresh future and store it with
`self.__pending[request_id] = fut` — a plain dict assignment. -/
def registerPending (pending : List (String × Option Frame)) (rid : String) :
    List (String × Option Frame) :=
  dset pending rid none

/-- The construction-time configuration stored by `KilovoltClient.__init__`
(connection.py lines 18–26): `self.url` and `self.password`. -/
structure ClientConfig where
  url : String
  password : Option String
deriving DecidableEq, Repr

/-- `KilovoltClient.__init__`: stores the `url` and `password` arguments. -/
def clientInit (url : String) (password : Option String) : ClientConfig :=
  { url := url, password := password }

/-- The address `KilovoltClient.connect` dials (connection.py line 67). The
source calls `websockets.connect("ws://localhost:4337/ws")` with a hardcoded
literal; the stored `self.url` is never consulted. -/
def connectUrl (_c : ClientConfig) : String :=
  "ws://localhost:4337/ws"

/-- External collaborators used by the authentication handshake: the Python
standard-library `hmac`/`hashlib`/`base64` modules and UTF-8 encoding. Bytes
are modelled as `List Nat`. `hmacSha256 key msg` is
`hmac.new(key, msg=msg, digestmod=hashlib.sha256).digest()`. -/
structure ExternalFns where
  hmacSha256 : List Nat → List Nat → List Nat
  b64decode : String → List Nat
  b64encode : List Nat → String
  utf8Bytes : String → List Nat

/-- The `data` payload of the `klogin` response: base64-encoded salt and
challenge strings as received from the server. -/
structure KloginData where
  salt : String
  challenge : String
deriving DecidableEq, Repr

/-- Commands written to the websocket by the authentication handshake. -/
inductive AuthSent where
  | klogin : AuthSent
  /-- `kauth` carrying `data = {"hash": …}`. -/
  | kauth : String → AuthSent
deriving DecidableEq, Repr

/-- The signature computed by `KilovoltClient.__auth` (connection.py line 243):
`hmac.new(bytes(self.password, "utf-8") + salt, msg=challenge,
digestmod=hashlib.sha256)` where `salt` and `challenge` are the base64-decoded
fields of the `klogin` response. -/
def authSignature (E : ExternalFns) (password : String) (d : KloginData) :
    List Nat :=
  E.hmacSha256 (E.utf8Bytes password ++ E.b64decode d.salt)
    (E.b64decode d.challenge)

/-- `KilovoltClient.__auth` (connection.py lines 237–247), as a function of the
server's replies: the list of commands sent and the outcome. Sends `klogin`,
computes the signature from the reply, sends `kauth` with the base64-encoded
signature, and raises `ValueError` when the `kauth` response has `ok` false
(the spec's `AuthenticationFailed`). -/
def authExchange (E : ExternalFns) (password : String) (d : KloginData)
    (authOk : Bool) : List AuthSent × Except PyErr Unit :=
  let hash := E.b64encode (authSignature E password d)
  ([AuthSent.klogin, AuthSent.kauth hash],
   if authOk then .ok () else .error .valueError)

/-- Modelled from the spec (§4.5, §8): the hash the specification requires the
client to send — `base64(HMAC-SHA256(key = credential ‖ salt, message =
challenge))`, with salt and challenge the base64-decoded values from the login
response. Stated separately from `authSignature` so the code's formula can be
compared against the spec's. -/
def specAuthHash (E : ExternalFns) (credential : String) (d : KloginData) :
    String :=
  E.b64encode
    (E.hmacSha256 (E.utf8Bytes credential ++ E.b64decode d.salt)
      (E.b64decode d.challenge))

/-- The auth part of `KilovoltClient.connect` (connection.py lines 71–72):
`if self.password is not None: await self.__auth()` — an auth failure
propagates out of `connect`. -/
def connectAuthResult (E : ExternalFns) (c : ClientConfig) (d : KloginData)
    (authOk : Bool) : Except PyErr Unit :=
  match c.password with
  | none => .ok ()
  | some p => (authExchange E p d authOk).2

/-- A heap of Python dict objects, for the aliasing behaviour of
`KilovoltClient.send`: references are allocated sequentially, `mem r` is the
dict object behind reference `r`. -/
structure Store (α : Type) where
  mem : Nat → List (String × α)
  next : Nat

/-- Allocate a fresh dict object holding `d` (e.g. the result of
`data.copy()`), returning the updated store and the new reference. -/
def Store.alloc {α : Type} (σ : Store α) (d : List (String × α)) :
    Store α × Nat :=
  ({ mem := fun r => if r = σ.next then d else σ.mem r, next := σ.next + 1 },
   σ.next)

/-- In-place mutation `obj[k] = v` on the dict object behind reference `r`. -/
def Store.setKey {α : Type} (σ : Store α) (r : Nat) (k : String) (v : α) :
    Store α :=
  { σ with mem := fun r2 => if r2 = r then dset (σ.mem r2) k v else σ.mem r2 }

/-- The message construction of `KilovoltClient.send` (connection.py lines
82–84): `message = data.copy(); message["request_id"] = request_id`. Returns
the updated heap and the reference of the `message` object that is then
serialized and written. -/
def buildMessage {α : Type} (σ : Store α) (dataRef : Nat) (rid : α) :
    Store α × Nat :=
  let a := σ.alloc (σ.mem dataRef)
  (a.1.setKey a.2 "request_id" rid, a.2)

/-! ## Helper lemmas -/

theorem dlookup_dset_self {α : Type} (d : List (String × α)) (k : String) (v : α) :
    dlookup (dset d k v) k = some v := by
  induction d with
  | nil => simp [dset, dlookup]
  | cons e rest ih =>
      obtain ⟨k1, v1⟩ := e
      by_cases h : k1 = k
      · simp [dset, h, dlookup]
      · simp [dset, h, dlookup, ih]

theorem dlookup_dset_ne {α : Type} (d : List (String × α)) (k k2 : String) (v : α)
    (h : k2 ≠ k) : dlookup (dset d k v) k2 = dlookup d k2 := by
  induction d with
  | nil => simp [dset, dlookup, Ne.symm h]
  | cons e rest ih =>
      obtain ⟨k1, v1⟩ := e
      by_cases h1 : k1 = k
      · subst h1
        simp [dset, dlookup, Ne.symm h]
      · simp [dset, dlookup, h1, ih]

theorem invoke_injective (k v : String) :
    Function.Injective (fun c : Nat => Event.invoke c k v) := by
  intro a b hab
  simpa using hab

theorem count_invoke_map (l : List Nat) (c : Nat) (k v : String) (hl : l.Nodup) :
    List.count (Event.invoke c k v) (l.map (fun c2 => Event.invoke c2 k v))
      = if c ∈ l then 1 else 0 := by
  rw [List.count_map_of_injective l _ (invoke_injective k v) c]
  by_cases h : c ∈ l
  · simp [h, List.count_eq_one_of_mem hl h]
  · simp [h, List.count_eq_zero_of_not_mem h]

theorem count_prefixDispatch (ps : List (String × List Nat)) (k v : String)
    (c : Nat) (hps : ∀ e ∈ ps, List.Nodup e.2) :
    List.count (Event.invoke c k v) (prefixDispatch ps k v)
      = (ps.filter (fun e => e.1.isPrefixOf k && decide (c ∈ e.2))).length := by
  induction ps with
  | nil => rfl
  | cons e rest ih =>
      have he : e.2.Nodup := hps e (List.mem_cons_self e rest)
      have ih2 := ih (fun x hx => hps x (List.mem_cons_of_mem e hx))
      rw [prefixDispatch, List.count_append, ih2, List.filter_cons]
      by_cases hp : e.1.isPrefixOf k
      · rw [if_pos hp, count_invoke_map e.2 c k v he]
        by_cases hc : c ∈ e.2 <;> simp [hp, hc, Nat.add_comm]
      · rw [if_neg hp]
        simp [hp]

theorem prefixDispatch_events (ps : List (String × List Nat)) (k v : String) :
    ∀ ev ∈ prefixDispatch ps k v, ∃ c2, ev = Event.invoke c2 k v := by
  induction ps with
  | nil =>
      intro ev hev
      simp [prefixDispatch] at hev
  | cons e rest ih =>
      intro ev hev
      rw [prefixDispatch] at hev
      rcases List.mem_append.1 hev with h1 | h2
      · by_cases hp : e.1.isPrefixOf k
        · rw [if_pos hp] at h1
          obtain ⟨c2, _, rfl⟩ := List.mem_map.1 h1
          exact ⟨c2, rfl⟩
        · rw [if_neg hp] at h1
          simp at h1
      · exact ih ev h2

theorem dispatchPush_eq (st : ClientState) (k v : String) :
    dispatchPush st k v
      = (listenersOfKey st k).map (fun c2 => Event.invoke c2 k v)
        ++ prefixDispatch st.prefixSubs k v := by
  unfold dispatchPush listenersOfKey
  cases h : dlookup st.keySubs k <;> simp [h]

/-! ## Claim theorems -/

/-- C1: refuted by the code (evaluation at the failing input). Subscribing the
first listener for `"mykey"` does send `ksub` once, but unsubscribing that
last remaining listener sends *no* `kunsub` and leaves the pattern registered
with an empty listener set: the source tests `len(self.__key_subscriptions) <
1`, the size of the whole registry (which still contains `"mykey"`), instead
of the size of the pattern's listener set, so the `kunsub` branch never
runs. -/
theorem unsubscribe_last_listener_sends_no_kunsub :
    subscribe initState "mykey" 7
      = ({ initState with keySubs := [("mykey", [7])] },
         [ServerCmd.ksub "mykey"]) ∧
    unsubscribe { initState with keySubs := [("mykey", [7])] } "mykey" 7
      = .ok ({ initState with keySubs := [("mykey", [])] }, []) :=
  ⟨by decide, rfl⟩

/-- C2: refuted by the code (evaluation at the failing input). The state with
`keySubs = [("a", [2])]` is reached by `subscribe` from the initial state, and
unsubscribing the only listener returns a state whose registry still contains
the pattern `"a"` with an empty listener set — violating the invariant that a
pattern is registered iff its listener set is non-empty. -/
theorem unsubscribe_leaves_pattern_with_zero_listeners :
    (subscribe initState "a" 2).1 = { initState with keySubs := [("a", [2])] } ∧
    unsubscribe { initState with keySubs := [("a", [2])] } "a" 2
      = .ok ({ initState with keySubs := [("a", [])] }, []) ∧
    dlookup ({ initState with keySubs := [("a", [])] } : ClientState).keySubs "a"
      = some [] :=
  ⟨by decide, rfl, rfl⟩

/-- C3 counterexample: in a reachable situation with one outstanding pending
request and `connected = True`, exhausting the inbound frame sequence leaves
the state completely unchanged — the pending entry is still there, unresolved,
and the session is still marked connected; nothing resembling a
connection-closed failure is produced. -/
theorem read_loop_end_no_cleanup_counterexample :
    readTask { pending := [("r1", none)], keySubs := [], prefixSubs := [],
               version := none, connected := true } []
      = .ok ({ pending := [("r1", none)], keySubs := [], prefixSubs := [],
               version := none, connected := true }, []) ∧
    dlookup ([(("r1" : String), (none : Option Frame))]) "r1" = some none ∧
    ({ pending := [("r1", none)], keySubs := [], prefixSubs := [],
       version := none, connected := true } : ClientState).connected = true :=
  ⟨rfl, rfl, rfl⟩

/-- C3 amended: when the inbound frame sequence ends, the read loop simply
terminates: no pending request is resolved or failed, the pending table is not
cleared, and the session is not marked disconnected — the state is returned
unchanged with no observable effect, so callers suspended in `send` are left
waiting. -/
theorem read_loop_end_terminates_without_cleanup (st : ClientState) :
    readTask st [] = .ok (st, []) :=
  rfl

/-- C5: refuted by the code (evaluation at the failing input). `connect` dials
the literal `"ws://localhost:4337/ws"` (connection.py line 67) and ignores the
`url` stored by the constructor, contradicting the constructor's documented
`url: Kilovolt server endpoint` parameter. -/
theorem connect_ignores_configured_url :
    connectUrl (clientInit "ws://example.com:9999/ws" none)
      = "ws://localhost:4337/ws" ∧
    (clientInit "ws://example.com:9999/ws" none).url
      ≠ "ws://localhost:4337/ws" := by
  refine ⟨rfl, ?_⟩
  decide

/-- C4 counterexample: delivering the response frame for the pending request
`"r1"` resolves its future with the frame, but the entry is *not* removed
from `__pending` — immediately afterwards `"r1"` is still registered in the
table (now holding a resolved future). -/
theorem response_resolution_keeps_pending_entry :
    handleFrame
        { pending := [("r1", none)], keySubs := [], prefixSubs := [],
          version := none, connected := false }
        { requestId := some "r1", ftype := none, key := none, newValue := none,
          version := none }
      = .ok ({ pending := [("r1", some { requestId := some "r1", ftype := none,
                                         key := none, newValue := none,
                                         version := none })],
               keySubs := [], prefixSubs := [], version := none,
               connected := false }, []) ∧
    dlookup
        [("r1", some ({ requestId := some "r1", ftype := none, key := none,
                        newValue := none, version := none } : Frame))] "r1"
      ≠ none :=
  ⟨rfl, by decide⟩

/-- C4 amended: when the read loop receives a frame whose `request_id` is
registered in the pending table with an unresolved slot, it resolves that slot
with exactly that frame but *leaves the request id registered* (the entry is
never deleted from `__pending`); a frame whose `request_id` is absent from the
table is only reported and does not terminate the read loop. -/
theorem response_resolution_sets_result_without_removal
    (st : ClientState) (f : Frame) (rid : String)
    (hreq : f.requestId = some rid) :
    (dlookup st.pending rid = some none →
      handleFrame st f
        = .ok ({ st with pending := dset st.pending rid (some f) }, []) ∧
      dlookup (dset st.pending rid (some f)) rid = some (some f)) ∧
    (dlookup st.pending rid = none →
      handleFrame st f = .ok (st, [Event.reportWeird])) := by
  constructor
  · intro h
    refine ⟨?_, dlookup_dset_self st.pending rid (some f)⟩
    simp only [handleFrame, hreq, h]
  · intro h
    simp only [handleFrame, hreq, h]

/-- Witness for `response_resolution_sets_result_without_removal` at a
concrete pending table and frame. -/
theorem response_resolution_sets_result_without_removal_witness :
    handleFrame
        { pending := [("w1", none)], keySubs := [], prefixSubs := [],
          version := none, connected := false }
        { requestId := some "w1", ftype := none, key := none, newValue := none,
          version := none }
      = .ok ({ pending := dset [("w1", none)] "w1"
                 (some { requestId := some "w1", ftype := none, key := none,
                         newValue := none, version := none }),
               keySubs := [], prefixSubs := [], version := none,
               connected := false }, []) ∧
    dlookup
        (dset [("w1", none)] "w1"
          (some ({ requestId := some "w1", ftype := none, key := none,
                   newValue := none, version := none } : Frame))) "w1"
      = some (some { requestId := some "w1", ftype := none, key := none,
                     newValue := none, version := none }) :=
  (response_resolution_sets_result_without_removal
      { pending := [("w1", none)], keySubs := [], prefixSubs := [],
        version := none, connected := false }
      { requestId := some "w1", ftype := none, key := none, newValue := none,
        version := none }
      "w1" rfl).1 rfl

/-- C6 counterexample: registering request id `"r1"` while `"r1"` is already
present (with a resolved slot) raises nothing and silently replaces the
existing slot with a fresh unresolved one — the plain dict assignment
`self.__pending[request_id] = fut` neither fails with a duplicate-id error
nor preserves the previous slot. -/
theorem register_duplicate_id_overwrites_slot :
    registerPending
        [("r1", some { requestId := some "r1", ftype := none, key := none,
                       newValue := none, version := none })] "r1"
      = [("r1", none)] ∧
    (some ({ requestId := some "r1", ftype := none, key := none,
             newValue := none, version := none } : Frame) : Option Frame)
      ≠ none :=
  ⟨rfl, by decide⟩

/-- C6 amended: registering a pending slot stores a fresh unresolved slot
under the request id, silently replacing any slot already stored under that id
(no duplicate-id error exists in the code); entries under other request ids
are untouched. -/
theorem register_pending_overwrites
    (P : List (String × Option Frame)) (rid r2 : String) :
    dlookup (registerPending P rid) rid = some none ∧
    (r2 ≠ rid → dlookup (registerPending P rid) r2 = dlookup P r2) :=
  ⟨dlookup_dset_self P rid none,
   fun h => dlookup_dset_ne P rid r2 none h⟩

/-- Witness for `register_pending_overwrites` at a concrete table. -/
theorem register_pending_overwrites_witness :
    dlookup (registerPending [("a", none)] "r9") "r9" = some none ∧
    dlookup (registerPending [("a", none)] "r9") "a"
      = dlookup [(("a" : String), (none : Option Frame))] "a" :=
  ⟨(register_pending_overwrites [("a", none)] "r9" "a").1,
   (register_pending_overwrites [("a", none)] "r9" "a").2 (by decide)⟩

/-- C8: unsubscribing a pattern with no entry in the corresponding registry —
exact key or prefix — takes the `raise ValueError` branch that precedes every
mutation and every `send`, so it fails with the not-subscribed error, writes
no server command and produces no new state. -/
theorem unsubscribe_unregistered_pattern_rejected
    (st : ClientState) (k p : String) (cb cb2 : Nat)
    (hk : dlookup st.keySubs k = none)
    (hp : dlookup st.prefixSubs p = none) :
    unsubscribe st k cb = .error .valueError ∧
    prefixUnsubscribe st p cb2 = .error .valueError := by
  constructor
  · unfold unsubscribe
    rw [hk]
  · unfold prefixUnsubscribe
    rw [hp]

/-- Witness for `unsubscribe_unregistered_pattern_rejected` on the freshly
initialized (empty) client state. -/
theorem unsubscribe_unregistered_pattern_rejected_witness :
    unsubscribe initState "x" 0 = .error .valueError ∧
    prefixUnsubscribe initState "y" 1 = .error .valueError :=
  unsubscribe_unregistered_pattern_rejected initState "x" "y" 0 1 rfl rfl

/-- C7: the `kauth` command sent by the authentication handshake carries
exactly the hash required by the spec — `base64(HMAC-SHA256(key = credential ‖
salt, message = challenge))` with salt and challenge base64-decoded from the
`klogin` reply — and when the server answers the `kauth` command with `ok =
false`, the handshake (and hence `connect`, which awaits it whenever a
password is configured) fails with the authentication error. -/
theorem auth_hash_matches_spec_and_rejection_fails_connect
    (E : ExternalFns) (url password : String) (d : KloginData) (authOk : Bool) :
    (authExchange E password d authOk).1
      = [AuthSent.klogin, AuthSent.kauth (specAuthHash E password d)] ∧
    (authOk = false →
      connectAuthResult E (clientInit url (some password)) d authOk
        = .error .valueError) := by
  refine ⟨rfl, fun h => ?_⟩
  subst h
  rfl

/-- Concrete external-function instantiation for the auth witness. -/
def sampleFns : ExternalFns :=
  { hmacSha256 := fun key msg => key ++ msg
    b64decode := fun s => [s.length]
    b64encode := fun l => toString l.length
    utf8Bytes := fun s => [s.length + 100] }

/-- Witness for `auth_hash_matches_spec_and_rejection_fails_connect` with
concrete external functions, credential, salt/challenge and a rejecting
server. -/
theorem auth_hash_matches_spec_witness :
    (authExchange sampleFns "pw" { salt := "s0", challenge := "c0" } false).1
      = [AuthSent.klogin,
         AuthSent.kauth
           (specAuthHash sampleFns "pw" { salt := "s0", challenge := "c0" })] ∧
    connectAuthResult sampleFns (clientInit "u" (some "pw"))
        { salt := "s0", challenge := "c0" } false
      = .error .valueError :=
  ⟨(auth_hash_matches_spec_and_rejection_fails_connect sampleFns "u" "pw"
      { salt := "s0", challenge := "c0" } false).1,
   (auth_hash_matches_spec_and_rejection_fails_connect sampleFns "u" "pw"
      { salt := "s0", challenge := "c0" } false).2 rfl⟩

/-- C10: building the outgoing message in `send` does not mutate the caller's
command dict. The `request_id` is written into the fresh object allocated by
`data.copy()`: after the two statements, the dict behind the caller's
reference is unchanged, and the message object that gets serialized is the
copy extended with `request_id`. -/
theorem send_does_not_mutate_argument {α : Type} (σ : Store α)
    (dataRef : Nat) (rid : α) (h : dataRef < σ.next) :
    ((buildMessage σ dataRef rid).1).mem dataRef = σ.mem dataRef ∧
    ((buildMessage σ dataRef rid).1).mem (buildMessage σ dataRef rid).2
      = dset (σ.mem dataRef) "request_id" rid := by
  have hne : dataRef ≠ σ.next := Nat.ne_of_lt h
  constructor
  · simp [buildMessage, Store.alloc, Store.setKey, hne]
  · simp [buildMessage, Store.alloc, Store.setKey]

/-- Witness for `send_does_not_mutate_argument` on a one-object heap. -/
theorem send_does_not_mutate_argument_witness :
    ((buildMessage ({ mem := fun _ => [("command", "kget")], next := 1 }
        : Store String) 0 "R1").1).mem 0
      = ({ mem := fun _ => [("command", "kget")], next := 1 }
          : Store String).mem 0 ∧
    ((buildMessage ({ mem := fun _ => [("command", "kget")], next := 1 }
        : Store String) 0 "R1").1).mem
        (buildMessage ({ mem := fun _ => [("command", "kget")], next := 1 }
          : Store String) 0 "R1").2
      = dset (({ mem := fun _ => [("command", "kget")], next := 1 }
            : Store String).mem 0) "request_id" "R1" :=
  send_does_not_mutate_argument
    ({ mem := fun _ => [("command", "kget")], next := 1 } : Store String)
    0 "R1" (by decide)

/-- C9: push dispatch semantics. For a push frame with key `k` and value `v`,
and a well-formed registry (listener sets are duplicate-free, as Python sets
are), the number of times a callback `c` is invoked with `(k, v)` is: one if
`c` is registered under the exact key `k` (zero otherwise — listeners under
other keys are never invoked), plus one for every registered prefix pattern
that is a literal string-prefix of `k` and has `c` in its listener set.
Moreover every event emitted by the dispatch is an invocation with exactly the
arguments `(k, v)`. -/
theorem push_dispatch_invocation_counts
    (st : ClientState) (k v : String) (c : Nat)
    (hkey : (listenersOfKey st k).Nodup)
    (hpre : ∀ e ∈ st.prefixSubs, List.Nodup e.2) :
    List.count (Event.invoke c k v) (dispatchPush st k v)
      = (if c ∈ listenersOfKey st k then 1 else 0)
        + (st.prefixSubs.filter
            (fun e => e.1.isPrefixOf k && decide (c ∈ e.2))).length ∧
    (∀ ev ∈ dispatchPush st k v, ∃ c2, ev = Event.invoke c2 k v) ∧
    (∀ w, handleFrame st
        { requestId := none, ftype := some "push", key := some k,
          newValue := some v, version := w }
        = .ok (st, dispatchPush st k v)) := by
  refine ⟨?_, ?_, fun w => rfl⟩
  · rw [dispatchPush_eq, List.count_append,
      count_invoke_map (listenersOfKey st k) c k v hkey,
      count_prefixDispatch st.prefixSubs k v c hpre]
  · intro ev hev
    rw [dispatchPush_eq] at hev
    rcases List.mem_append.1 hev with h1 | h2
    · obtain ⟨c2, _, rfl⟩ := List.mem_map.1 h1
      exact ⟨c2, rfl⟩
    · exact prefixDispatch_events st.prefixSubs k v ev h2

/-- Witness for `push_dispatch_invocation_counts`: a registry with two exact
listeners on `"twitch/chat"`, one prefix listener on `"twitch"` (which also
holds callback 1) and one on the non-matching prefix `"ot"`; callback 1 is
invoked twice for a push of `"twitch/chat"`. -/
theorem push_dispatch_invocation_counts_witness :
    List.count (Event.invoke 1 "twitch/chat" "hello")
        (dispatchPush
          { pending := [], keySubs := [("twitch/chat", [1, 2])],
            prefixSubs := [("twitch", [1]), ("ot", [3])], version := none,
            connected := true } "twitch/chat" "hello")
      = (if 1 ∈ listenersOfKey
              { pending := [], keySubs := [("twitch/chat", [1, 2])],
                prefixSubs := [("twitch", [1]), ("ot", [3])], version := none,
                connected := true } "twitch/chat"
         then 1 else 0)
        + (({ pending := [], keySubs := [("twitch/chat", [1, 2])],
              prefixSubs := [("twitch", [1]), ("ot", [3])], version := none,
              connected := true } : ClientState).prefixSubs.filter
            (fun e => e.1.isPrefixOf "twitch/chat" && decide (1 ∈ e.2))).length ∧
    (∀ ev ∈ dispatchPush
        { pending := [], keySubs := [("twitch/chat", [1, 2])],
          prefixSubs := [("twitch", [1]), ("ot", [3])], version := none,
          connected := true } "twitch/chat" "hello",
      ∃ c2, ev = Event.invoke c2 "twitch/chat" "hello") ∧
    handleFrame
        { pending := [], keySubs := [("twitch/chat", [1, 2])],
          prefixSubs := [("twitch", [1]), ("ot", [3])], version := none,
          connected := true }
        { requestId := none, ftype := some "push", key := some "twitch/chat",
          newValue := some "hello", version := none }
      = .ok ({ pending := [], keySubs := [("twitch/chat", [1, 2])],
               prefixSubs := [("twitch", [1]), ("ot", [3])], version := none,
               connected := true },
             dispatchPush
               { pending := [], keySubs := [("twitch/chat", [1, 2])],
                 prefixSubs := [("twitch", [1]), ("ot", [3])], version := none,
                 connected := true } "twitch/chat" "hello") :=
  ⟨(push_dispatch_invocation_counts
      { pending := [], keySubs := [("twitch/chat", [1, 2])],
        prefixSubs := [("twitch", [1]), ("ot", [3])], version := none,
        connected := true }
      "twitch/chat" "hello" 1 (by decide) (by decide)).1,
   (push_dispatch_invocation_counts
      { pending := [], keySubs := [("twitch/chat", [1, 2])],
        prefixSubs := [("twitch", [1]), ("ot", [3])], version := none,
        connected := true }
      "twitch/chat" "hello" 1 (by decide) (by decide)).2.1,
   (push_dispatch_invocation_counts
      { pending := [], keySubs := [("twitch/chat", [1, 2])],
        prefixSubs := [("twitch", [1]), ("ot", [3])], version := none,
        connected := true }
      "twitch/chat" "hello" 1 (by decide) (by decide)).2.2 none⟩
